import Mathlib

/-!
Verification of `scripts/transcribe.py` (tt-toolk1t repository).

The script is a thin, single-threaded pipeline: create a temp `.wav` path,
run `ffmpeg` to extract audio, load a faster-whisper model, transcribe,
assemble a JSON result; a `finally` block deletes the temp file; the
`__main__` block parses `sys.argv`, prints the success JSON to stdout or an
error envelope to stderr with exit code 1.

Shallow embedding conventions:
- The filesystem is a list of existing paths.
- The three external steps (the `ffmpeg` subprocess, `WhisperModel(...)`,
  `model.transcribe(...)`) are oracles packaged in an `Env`: each invocation
  consults a fixed outcome, covering every success/failure combination.
- Python exceptions are the inductive `PyExc`; `subprocess.run` with
  `check=True, capture_output=True` raises `CalledProcessError` carrying the
  captured stdout/stderr when the tool exits non-zero, and `FileNotFoundError`
  (no captured output) when the executable cannot be located.
- Python floats that merely flow through the pipeline unchanged
  (`language_probability`, `duration`) are modelled as rationals.
- Observable behaviour is returned explicitly: result, final filesystem, and
  a trace of effect `Event`s (temp-file creation, subprocess invocation,
  model load, inference call, unlink).
-/

/-- A single apostrophe character, used by Python `repr` of simple strings. -/
def singleQuote : String := String.singleton (Char.ofNat 39)

/-- Python `repr` of a command-line token (none of the fixed ffmpeg arguments
need escaping). -/
def pyRepr (s : String) : String := singleQuote ++ s ++ singleQuote

/-- Python `repr` of a list of strings, as it appears in
`str(CalledProcessError)`. -/
def pyListRepr (xs : List String) : String :=
  "[" ++ String.intercalate ", " (xs.map pyRepr) ++ "]"

/-- Python exception values that the script can raise or propagate.
`calledProcessError` carries the command, return code, and the captured
stdout/stderr (present because the script passes `capture_output=True`);
`fileNotFoundError` is what `subprocess.run` raises when the executable is
missing — it has no captured process output. -/
inductive PyExc where
  | calledProcessError (cmd : List String) (returncode : Int)
      (stdoutCap stderrCap : Option String)
  | fileNotFoundError (msg : String)
  | other (msg : String)
deriving DecidableEq, Repr

/-- Rendering of `str(e)` for the modelled exceptions. `CalledProcessError.__str__` renders
the command and status; it does NOT include the captured stderr text. -/
def PyExc.message : PyExc → String
  | .calledProcessError cmd rc _ _ =>
      if rc < 0 then
        "Command " ++ pyListRepr cmd ++ " died with unknown signal "
          ++ toString (-rc) ++ "."
      else
        "Command " ++ pyListRepr cmd ++ " returned non-zero exit status "
          ++ toString rc ++ "."
  | .fileNotFoundError m => m
  | .other m => m

/-- The captured subprocess error output carried by an exception object
(`e.stderr`): set on `CalledProcessError` when `capture_output=True` was
passed; absent on every other exception. -/
def PyExc.capturedStderr : PyExc → Option String
  | .calledProcessError _ _ _ e => e
  | _ => none

/-- Metadata record returned by `model.transcribe` (`info.language`,
`info.language_probability`, `info.duration`). -/
structure WhisperInfo where
  language : String
  language_probability : Rat
  duration : Rat
deriving DecidableEq, Repr

/-- Outcome of attempting to run the `ffmpeg` subprocess: either the process
completed with a return code, captured stdout/stderr, and a resulting
filesystem state (the tool may have written the output file, or partial
output), or the executable could not be located (the filesystem is
untouched). -/
inductive FfmpegOutcome where
  | completed (returncode : Int) (toolOut toolErr : String)
      (fsAfter : List String)
  | notFound (msg : String)
deriving DecidableEq, Repr

/-- Oracle outcomes for one invocation: the temp path chosen by
`tempfile.NamedTemporaryFile`, the `ffmpeg` run outcome, the model-load
outcome, and the inference outcome (the list of `segment.text` values plus
the info record; an exception anywhere during lazy segment iteration is
modelled as the whole inference failing, which is observationally identical
here since no partial result escapes the `try`). -/
structure Env where
  tempName : String
  ffmpeg : FfmpegOutcome
  loadModel : Except PyExc Unit
  transcribeOut : Except PyExc (List String × WhisperInfo)

/-- Effect trace entries. -/
inductive Event where
  | tempFileCreate (path : String)
  | subprocessRun (cmd : List String)
  | modelLoad (modelSize device computeType : String)
  | modelTranscribe (audioPath : String) (beamSize : Nat)
  | unlink (path : String)
deriving DecidableEq, Repr

/-- The four fields of the result dict (lines 55-60 of the script). -/
structure TranscriptionResult where
  transcript : String
  language : String
  language_probability : Rat
  duration : Rat
deriving DecidableEq, Repr

/-- Characters stripped by Python `str.strip()` with no argument. -/
def isPyWhitespace (c : Char) : Bool :=
  c = ' ' || c = '\t' || c = '\n' || c = '\r' || c = '\x0b' || c = '\x0c'

/-- Python `str.strip()`: drop leading and trailing whitespace. -/
def pyStrip (s : String) : String :=
  String.mk (((s.data.dropWhile isPyWhitespace).reverse.dropWhile
    isPyWhitespace).reverse)

/-- Python `sep.join(parts)`: empty string for an empty list, otherwise the
parts with `sep` between each consecutive pair. -/
def pyJoin (sep : String) : List String → String
  | [] => ""
  | [x] => x
  | x :: y :: xs => x ++ sep ++ pyJoin sep (y :: xs)

/-- The fixed `ffmpeg` argument list built at lines 29-38 of the script. -/
def ffmpegCmd (video_path audio_path : String) : List String :=
  ["ffmpeg", "-i", video_path, "-vn", "-acodec", "pcm_s16le",
   "-ar", "16000", "-ac", "1", "-y", audio_path]

/-- Model of `subprocess.run(ffmpeg_cmd, check=True, capture_output=True)`: returns
normally only on exit status 0; raises `CalledProcessError` (carrying the
captured output) on a non-zero status; raises `FileNotFoundError` when the
executable is missing. Returns the step result and the filesystem after the
step. -/
def runExtract (env : Env) (fs : List String)
    (video_path audio_path : String) : Except PyExc Unit × List String :=
  match env.ffmpeg with
  | .completed rc tout terr fsAfter =>
      if rc = 0 then (.ok (), fsAfter)
      else (.error (.calledProcessError (ffmpegCmd video_path audio_path) rc
              (some tout) (some terr)), fsAfter)
  | .notFound msg => (.error (.fileNotFoundError msg), fs)

/-- The `try` block of `transcribe_video` (lines 27-60): extraction, model
load with `device="cpu", compute_type="int8"`, inference with `beam_size=5`,
then per-segment `strip()` and `" ".join`. Returns the result-or-exception,
the filesystem, and the effect trace of the block. -/
def tryBody (env : Env) (fs : List String)
    (video_path model_size audio_path : String) :
    Except PyExc TranscriptionResult × List String × List Event :=
  let cmd := ffmpegCmd video_path audio_path
  match runExtract env fs video_path audio_path with
  | (.error e, fs2) => (.error e, fs2, [.subprocessRun cmd])
  | (.ok _, fs2) =>
    match env.loadModel with
    | .error e =>
        (.error e, fs2,
         [.subprocessRun cmd, .modelLoad model_size "cpu" "int8"])
    | .ok _ =>
      match env.transcribeOut with
      | .error e =>
          (.error e, fs2,
           [.subprocessRun cmd, .modelLoad model_size "cpu" "int8",
            .modelTranscribe audio_path 5])
      | .ok (segs, info) =>
          (.ok { transcript := pyJoin " " (segs.map pyStrip),
                 language := info.language,
                 language_probability := info.language_probability,
                 duration := info.duration },
           fs2,
           [.subprocessRun cmd, .modelLoad model_size "cpu" "int8",
            .modelTranscribe audio_path 5])

/-- The `finally` block (lines 62-65): `if os.path.exists(audio_path):
os.unlink(audio_path)`. -/
def cleanupTemp (p : String) (fs : List String) : List String :=
  if p ∈ fs then fs.filter (fun q => q != p) else fs

/-- Unlink trace entries emitted by the `finally` block. -/
def unlinkEvents (p : String) (fs : List String) : List Event :=
  if p ∈ fs then [Event.unlink p] else []

/-- Model of `transcribe_video(video_path, model_size)` (lines 12-65): create the temp
file (so its path exists on the filesystem), run the `try` body, and run the
`finally` cleanup on every exit path, exceptional or not. -/
def transcribe_video (env : Env) (fs : List String)
    (video_path model_size : String) :
    Except PyExc TranscriptionResult × List String × List Event :=
  let audio_path := env.tempName
  let r := tryBody env (audio_path :: fs) video_path model_size audio_path
  (r.1, cleanupTemp audio_path r.2.1,
   Event.tempFileCreate audio_path :: (r.2.2 ++ unlinkEvents audio_path r.2.1))

/-- A hexadecimal digit character (lower case, as `json.dumps` emits). -/
def hexDigit (n : Nat) : Char :=
  if n < 10 then Char.ofNat (48 + n) else Char.ofNat (87 + n)

/-- Four hex digits of a code unit, for `\uXXXX` escapes. -/
def hex4 (n : Nat) : String :=
  String.mk [hexDigit (n / 4096 % 16), hexDigit (n / 256 % 16),
             hexDigit (n / 16 % 16), hexDigit (n % 16)]

/-- A `\uXXXX` escape. -/
def uEsc (n : Nat) : String := "\\u" ++ hex4 n

/-- Escaping of one character by `json.dumps` with the default
`ensure_ascii=True`: printable ASCII other than quote and backslash passes
through, short escapes for the usual controls, `\uXXXX` otherwise (surrogate
pairs above the BMP). -/
def jsonEscapeChar (c : Char) : String :=
  if c = '\x22' then "\\\""
  else if c = '\\' then "\\\\"
  else if c = '\n' then "\\n"
  else if c = '\r' then "\\r"
  else if c = '\t' then "\\t"
  else if c = '\x08' then "\\b"
  else if c = '\x0c' then "\\f"
  else if c.toNat < 32 then uEsc c.toNat
  else if c.toNat < 127 then String.singleton c
  else if c.toNat < 65536 then uEsc c.toNat
  else uEsc (55296 + (c.toNat - 65536) / 1024)
         ++ uEsc (56320 + (c.toNat - 65536) % 1024)

/-- Escaping of a whole string by `json.dumps`. -/
def jsonEscape (s : String) : String :=
  String.join (s.data.map jsonEscapeChar)

/-- A JSON value appearing in the result dict: a string or a number (the
numbers are the floats modelled as rationals). -/
inductive JVal where
  | s (v : String)
  | n (v : Rat)
deriving DecidableEq, Repr

/-- The result dict as an ordered association list, in the insertion order of
the dict literal at lines 55-60 (`json.dumps` preserves it). -/
def resultPairs (r : TranscriptionResult) : List (String × JVal) :=
  [("transcript", .s r.transcript),
   ("language", .s r.language),
   ("language_probability", .n r.language_probability),
   ("duration", .n r.duration)]

/-- Textual rendering of a JSON value. The rendering of a number abstracts
Python float `repr` (the floats are already abstracted as rationals). -/
def renderJVal : JVal → String
  | .s v => "\"" ++ jsonEscape v ++ "\""
  | .n q => toString q

/-- One `"key": value` item as `json.dumps` renders it. -/
def renderPair (p : String × JVal) : String :=
  "\"" ++ jsonEscape p.1 ++ "\": " ++ renderJVal p.2

/-- Rendering of `json.dumps(result)` with the default separators. -/
def jsonDumps (r : TranscriptionResult) : String :=
  "\x7b" ++ String.intercalate ", " ((resultPairs r).map renderPair) ++ "\x7d"

/-- The usage-error line printed at line 69 of the script. -/
def usageMsg : String := "Usage: transcribe.py <video_path> [model_size]"

/-- The error envelope built by the f-string at line 80:
`{"error": "<message>"}`. -/
def errLine (msg : String) : String :=
  "\x7b\"error\": \"" ++ msg ++ "\"\x7d"

/-- Observable outcome of one process invocation: exit code, the lines
printed to stdout and stderr, the final filesystem, and the effect trace. -/
structure ProcResult where
  exitCode : Nat
  stdoutLines : List String
  stderrLines : List String
  fs : List String
  events : List Event
deriving Repr

/-- The `try/except` at lines 75-81: run the pipeline; on success print
`json.dumps(result)` to stdout and exit 0; on any exception print the error
envelope to stderr and exit 1. -/
def runPipeline (env : Env) (fs : List String)
    (video_path model_size : String) : ProcResult :=
  match transcribe_video env fs video_path model_size with
  | (.ok r, fs2, evs) =>
      { exitCode := 0, stdoutLines := [jsonDumps r], stderrLines := [],
        fs := fs2, events := evs }
  | (.error e, fs2, evs) =>
      { exitCode := 1, stdoutLines := [],
        stderrLines := [errLine e.message], fs := fs2, events := evs }

/-- The `__main__` block (lines 67-81): with fewer than two `sys.argv`
entries (i.e. fewer than one positional argument) print the usage envelope
to stderr and exit 1 before any processing; otherwise take `argv[1]` as the
video path and `argv[2]` (when present) as the model size, defaulting to
`"base"`, and run the pipeline. -/
def mainRun (env : Env) (fs : List String) (argv : List String) : ProcResult :=
  if argv.length < 2 then
    { exitCode := 1, stdoutLines := [], stderrLines := [errLine usageMsg],
      fs := fs, events := [] }
  else
    runPipeline env fs (argv.getD 1 "")
      (if 2 < argv.length then argv.getD 2 "" else "base")

/-- Spec-side result assembly, following the spec's words: each segment's
text trimmed of leading and trailing whitespace first, then the trimmed
texts joined in sequence order by a single space. -/
def specTranscript : List String → String
  | [] => ""
  | [t] => pyStrip t
  | t :: rest => pyStrip t ++ " " ++ specTranscript rest

/-! ## Shared lemmas -/

/-- After the `finally` cleanup, the temp path is gone. -/
theorem cleanupTemp_not_mem (p : String) (fs : List String) :
    p ∉ cleanupTemp p fs := by
  unfold cleanupTemp
  by_cases h : p ∈ fs
  · simp [h, List.mem_filter]
  · simp [h]

/-- The per-segment-strip-then-join computed by the code's loop and
`" ".join` coincides with the spec-side assembly. -/
theorem pyJoin_map_strip (l : List String) :
    pyJoin " " (l.map pyStrip) = specTranscript l := by
  induction l with
  | nil => rfl
  | cons t ts ih =>
      cases ts with
      | nil => rfl
      | cons u rest =>
          simp only [List.map, pyJoin, specTranscript] at ih ⊢
          rw [ih]

/-- When all three steps succeed, `tryBody` is fully determined. -/
theorem tryBody_success (env : Env) (fs : List String)
    (video_path model_size audio_path tout terr : String)
    (fsA : List String) (segs : List String) (info : WhisperInfo)
    (hf : env.ffmpeg = .completed 0 tout terr fsA)
    (hl : env.loadModel = .ok ())
    (ht : env.transcribeOut = .ok (segs, info)) :
    tryBody env fs video_path model_size audio_path =
      (.ok { transcript := pyJoin " " (segs.map pyStrip),
             language := info.language,
             language_probability := info.language_probability,
             duration := info.duration },
       fsA,
       [.subprocessRun (ffmpegCmd video_path audio_path),
        .modelLoad model_size "cpu" "int8",
        .modelTranscribe audio_path 5]) := by
  simp [tryBody, runExtract, hf, hl, ht]

/-- When `ffmpeg` exits non-zero, `tryBody` raises the `CalledProcessError`
carrying the captured output, and nothing past extraction runs. -/
theorem tryBody_ffmpegFail (env : Env) (fs : List String)
    (video_path model_size audio_path tout terr : String) (rc : Int)
    (fsA : List String)
    (hf : env.ffmpeg = .completed rc tout terr fsA) (hrc : rc ≠ 0) :
    tryBody env fs video_path model_size audio_path =
      (.error (.calledProcessError (ffmpegCmd video_path audio_path) rc
          (some tout) (some terr)),
       fsA, [.subprocessRun (ffmpegCmd video_path audio_path)]) := by
  simp [tryBody, runExtract, hf, hrc]

/-- Unfolding of `transcribe_video` into its three components. -/
theorem transcribe_video_eq (env : Env) (fs : List String) (v m : String) :
    transcribe_video env fs v m =
      ((tryBody env (env.tempName :: fs) v m env.tempName).1,
       cleanupTemp env.tempName
         (tryBody env (env.tempName :: fs) v m env.tempName).2.1,
       Event.tempFileCreate env.tempName ::
         ((tryBody env (env.tempName :: fs) v m env.tempName).2.2 ++
          unlinkEvents env.tempName
            (tryBody env (env.tempName :: fs) v m env.tempName).2.1)) := rfl

/-- Whatever the oracle outcomes, the subprocess invocation for the fixed
command is in the `try` block's trace. -/
theorem tryBody_run_mem (env : Env) (fs : List String) (v m a : String) :
    Event.subprocessRun (ffmpegCmd v a) ∈ (tryBody env fs v m a).2.2 := by
  rcases hf : env.ffmpeg with ⟨rc, tout, terr, fsA⟩ | msg
  · by_cases hrc : rc = 0
    · rcases hl : env.loadModel with e | u
      · simp [tryBody, runExtract, hf, hrc, hl]
      · rcases ht : env.transcribeOut with e | ⟨segs, info⟩ <;>
          simp [tryBody, runExtract, hf, hrc, hl, ht]
    · simp [tryBody, runExtract, hf, hrc]
  · simp [tryBody, runExtract, hf]

/-! ## Claim theorems -/

/-- C1: for every invocation of `transcribe_video` — whether it returns a
result or raises at any step (audio extraction failure, model load failure,
or inference failure; the oracle outcomes in `env` range over all of these)
— the temporary audio file created at the start does not exist on the final
filesystem after the call completes. -/
theorem temp_file_gone_after_call (env : Env) (fs : List String)
    (video_path model_size : String) :
    env.tempName ∉ (transcribe_video env fs video_path model_size).2.1 :=
  cleanupTemp_not_mem _ _

/-- C2: on the success path the `transcript` field equals the segments'
texts each trimmed of leading and trailing whitespace first, then joined in
sequence order by a single space; in particular the segments
`["Hello ", " world"]` yield exactly `"Hello world"`, and an empty segment
sequence yields the empty string. -/
theorem transcript_is_trim_then_join (env : Env) (fs : List String)
    (video_path model_size tout terr : String) (fsA : List String)
    (segs : List String) (info : WhisperInfo)
    (hf : env.ffmpeg = .completed 0 tout terr fsA)
    (hl : env.loadModel = .ok ())
    (ht : env.transcribeOut = .ok (segs, info)) :
    (∃ r, (transcribe_video env fs video_path model_size).1 = .ok r
        ∧ r.transcript = specTranscript segs)
    ∧ specTranscript ["Hello ", " world"] = "Hello world"
    ∧ specTranscript ([] : List String) = "" := by
  refine ⟨?_, by decide, rfl⟩
  have h := tryBody_success env (env.tempName :: fs) video_path model_size
    env.tempName tout terr fsA segs info hf hl ht
  refine ⟨{ transcript := pyJoin " " (segs.map pyStrip),
            language := info.language,
            language_probability := info.language_probability,
            duration := info.duration }, ?_, pyJoin_map_strip segs⟩
  rw [transcribe_video_eq, h]

/-- Oracle sample where all three steps succeed. -/
def envOkSample : Env :=
  { tempName := "/tmp/audio.wav",
    ffmpeg := .completed 0 "" "ffmpeg log" ["/tmp/audio.wav", "video.mp4"],
    loadModel := .ok (),
    transcribeOut := .ok (["Hello ", " world"],
      { language := "en", language_probability := 9/10, duration := 3/2 }) }

/-- Witness for C2 at a concrete successful run. -/
theorem transcript_is_trim_then_join_witness :
    (∃ r, (transcribe_video envOkSample [] "video.mp4" "base").1 = .ok r
        ∧ r.transcript = specTranscript ["Hello ", " world"])
    ∧ specTranscript ["Hello ", " world"] = "Hello world"
    ∧ specTranscript ([] : List String) = "" :=
  transcript_is_trim_then_join envOkSample [] "video.mp4" "base" "" "ffmpeg log"
    ["/tmp/audio.wav", "video.mp4"] ["Hello ", " world"]
    { language := "en", language_probability := 9/10, duration := 3/2 }
    rfl rfl rfl

/-- C8: on every invocation the media tool is invoked as a subprocess with
exactly the fixed argument list — no video stream (`-vn`), PCM 16-bit
little-endian codec (`-acodec pcm_s16le`), 16000 Hz (`-ar 16000`), one
channel (`-ac 1`), forced overwrite (`-y`), and the temporary path as
output. -/
theorem ffmpeg_fixed_args (env : Env) (fs : List String)
    (video_path model_size : String) :
    Event.subprocessRun (ffmpegCmd video_path env.tempName) ∈
      (transcribe_video env fs video_path model_size).2.2
    ∧ ffmpegCmd video_path env.tempName =
      ["ffmpeg", "-i", video_path, "-vn", "-acodec", "pcm_s16le",
       "-ar", "16000", "-ac", "1", "-y", env.tempName] := by
  refine ⟨?_, rfl⟩
  rw [transcribe_video_eq]
  exact List.mem_cons_of_mem _
    (List.mem_append_left _ (tryBody_run_mem env _ video_path model_size _))

/-- C9: with exactly one positional argument the pipeline runs with model
size `"base"`; a second positional argument is passed through verbatim as
the model size. -/
theorem model_size_default_and_verbatim (env : Env) (fs : List String)
    (prog v m : String) :
    mainRun env fs [prog, v] = runPipeline env fs v "base"
    ∧ mainRun env fs [prog, v, m] = runPipeline env fs v m :=
  ⟨rfl, rfl⟩

/-- With at least one positional argument, `mainRun` is the pipeline on
`argv[1]` and the selected model size. -/
theorem mainRun_eq_pipeline (env : Env) (fs argv : List String)
    (hne : ¬ argv.length < 2) :
    mainRun env fs argv = runPipeline env fs (argv.getD 1 "")
      (if 2 < argv.length then argv.getD 2 "" else "base") := by
  rw [mainRun, if_neg hne]

/-- Value of `runPipeline` on a raising pipeline run. -/
theorem runPipeline_error (env : Env) (fs : List String) (v m : String)
    (e : PyExc) (fs2 : List String) (evs : List Event)
    (htv : transcribe_video env fs v m = (.error e, fs2, evs)) :
    runPipeline env fs v m =
      { exitCode := 1, stdoutLines := [], stderrLines := [errLine e.message],
        fs := fs2, events := evs } := by
  rw [runPipeline, htv]

/-- Value of `runPipeline` on a successful pipeline run. -/
theorem runPipeline_ok (env : Env) (fs : List String) (v m : String)
    (r : TranscriptionResult) (fs2 : List String) (evs : List Event)
    (htv : transcribe_video env fs v m = (.ok r, fs2, evs)) :
    runPipeline env fs v m =
      { exitCode := 0, stdoutLines := [jsonDumps r], stderrLines := [],
        fs := fs2, events := evs } := by
  rw [runPipeline, htv]

/-- C3: whenever the pipeline raises, the `__main__` block catches it,
writes the single-field envelope with the exception's message to stderr,
exits 1, and emits nothing to stdout. -/
theorem error_envelope_on_failure (env : Env) (fs : List String)
    (argv : List String) (e : PyExc)
    (hlen : 2 ≤ argv.length)
    (herr : (transcribe_video env fs (argv.getD 1 "")
        (if 2 < argv.length then argv.getD 2 "" else "base")).1 = .error e) :
    (mainRun env fs argv).exitCode = 1
    ∧ (mainRun env fs argv).stderrLines = [errLine e.message]
    ∧ (mainRun env fs argv).stdoutLines = [] := by
  have hne : ¬ argv.length < 2 := by omega
  rcases htv : transcribe_video env fs (argv.getD 1 "")
      (if 2 < argv.length then argv.getD 2 "" else "base") with ⟨res, fs2, evs⟩
  rw [htv] at herr
  have hres : res = Except.error e := herr
  subst hres
  rw [mainRun_eq_pipeline env fs argv hne,
    runPipeline_error env fs _ _ e fs2 evs htv]
  exact ⟨rfl, rfl, rfl⟩

/-- Oracle sample where `ffmpeg` runs but exits with status 1. -/
def envFfmpegFail : Env :=
  { tempName := "/tmp/audio.wav",
    ffmpeg := .completed 1 "" "missing.mp4: No such file or directory"
      ["/tmp/audio.wav"],
    loadModel := .ok (),
    transcribeOut := .ok ([],
      { language := "en", language_probability := 1, duration := 0 }) }

/-- The exception raised on that sample. -/
def cpeSample : PyExc :=
  .calledProcessError (ffmpegCmd "missing.mp4" "/tmp/audio.wav") 1
    (some "") (some "missing.mp4: No such file or directory")

/-- Witness for C3 at a concrete failing run. -/
theorem error_envelope_on_failure_witness :
    (mainRun envFfmpegFail [] ["transcribe.py", "missing.mp4"]).exitCode = 1
    ∧ (mainRun envFfmpegFail [] ["transcribe.py", "missing.mp4"]).stderrLines
        = [errLine cpeSample.message]
    ∧ (mainRun envFfmpegFail [] ["transcribe.py", "missing.mp4"]).stdoutLines
        = [] :=
  error_envelope_on_failure envFfmpegFail [] ["transcribe.py", "missing.mp4"]
    cpeSample (by decide) rfl

/-- C6: with fewer than one positional argument the process exits 1 with the
usage envelope on stderr, the filesystem untouched and the effect trace
empty (no temp-file creation, no extraction, no model load), and the error
message mentions usage. -/
theorem usage_error_before_processing (env : Env) (fs : List String)
    (argv : List String) (h : argv.length < 2) :
    mainRun env fs argv =
      { exitCode := 1, stdoutLines := [], stderrLines := [errLine usageMsg],
        fs := fs, events := [] }
    ∧ usageMsg = "Usage: transcribe.py <video_path> [model_size]" :=
  ⟨by simp [mainRun, h], rfl⟩

/-- Witness for C6 with an empty positional argument list. -/
theorem usage_error_before_processing_witness :
    (["transcribe.py"] : List String).length < 2
    ∧ (mainRun envOkSample ["keep.file"] ["transcribe.py"] =
        { exitCode := 1, stdoutLines := [],
          stderrLines := [errLine usageMsg], fs := ["keep.file"],
          events := [] }
       ∧ usageMsg = "Usage: transcribe.py <video_path> [model_size]") :=
  ⟨by decide,
   usage_error_before_processing envOkSample ["keep.file"] ["transcribe.py"]
     (by decide)⟩

/-- C7: whenever extraction succeeds (so the recognition step is reached),
the model is loaded with the given size on device `"cpu"` with compute type
`"int8"`, and — when the load succeeds — inference runs on the temp audio
path with beam width 5. -/
theorem model_and_beam_params_fixed (env : Env) (fs : List String)
    (video_path model_size tout terr : String) (fsA : List String)
    (hf : env.ffmpeg = .completed 0 tout terr fsA) :
    Event.modelLoad model_size "cpu" "int8" ∈
      (transcribe_video env fs video_path model_size).2.2
    ∧ (env.loadModel = .ok () →
        Event.modelTranscribe env.tempName 5 ∈
          (transcribe_video env fs video_path model_size).2.2) := by
  rw [transcribe_video_eq]
  constructor
  · rcases hl : env.loadModel with e | u
    · simp [tryBody, runExtract, hf, hl]
    · rcases ht : env.transcribeOut with e | ⟨segs, info⟩ <;>
        simp [tryBody, runExtract, hf, hl, ht]
  · intro hl
    rcases ht : env.transcribeOut with e | ⟨segs, info⟩ <;>
      simp [tryBody, runExtract, hf, hl, ht]

/-- Witness for C7 at a concrete successful run. -/
theorem model_and_beam_params_fixed_witness :
    envOkSample.ffmpeg =
      .completed 0 "" "ffmpeg log" ["/tmp/audio.wav", "video.mp4"]
    ∧ (Event.modelLoad "base" "cpu" "int8" ∈
        (transcribe_video envOkSample [] "video.mp4" "base").2.2
       ∧ (envOkSample.loadModel = .ok () →
           Event.modelTranscribe envOkSample.tempName 5 ∈
             (transcribe_video envOkSample [] "video.mp4" "base").2.2)) :=
  ⟨rfl,
   model_and_beam_params_fixed envOkSample [] "video.mp4" "base" ""
     "ffmpeg log" ["/tmp/audio.wav", "video.mp4"] rfl⟩

/-- C10: a failing invocation (usage error or any pipeline exception) writes
nothing to stdout. -/
theorem no_stdout_on_failure (env : Env) (fs argv : List String)
    (h : (mainRun env fs argv).exitCode ≠ 0) :
    (mainRun env fs argv).stdoutLines = [] := by
  by_cases hlen : argv.length < 2
  · rw [mainRun, if_pos hlen]
  · rcases htv : transcribe_video env fs (argv.getD 1 "")
        (if 2 < argv.length then argv.getD 2 "" else "base")
      with ⟨res, fs2, evs⟩
    rcases res with e | r
    · rw [mainRun_eq_pipeline env fs argv hlen,
        runPipeline_error env fs _ _ e fs2 evs htv]
    · exact absurd
        (by rw [mainRun_eq_pipeline env fs argv hlen,
              runPipeline_ok env fs _ _ r fs2 evs htv])
        h

/-- Witness for C10 at a concrete failing run. -/
theorem no_stdout_on_failure_witness :
    ((mainRun envFfmpegFail [] ["transcribe.py", "missing.mp4"]).exitCode ≠ 0)
    ∧ (mainRun envFfmpegFail [] ["transcribe.py", "missing.mp4"]).stdoutLines
        = [] :=
  ⟨by decide,
   no_stdout_on_failure envFfmpegFail [] ["transcribe.py", "missing.mp4"]
     (by decide)⟩

/-- C5: when all three pipeline steps succeed, the process exits 0 and
prints to stdout one line, `json.dumps` of a result whose dict holds exactly
the four fields `transcript` (string), `language` (string),
`language_probability` (number), `duration` (number), in that order; stderr
gets nothing. -/
theorem success_json_output (env : Env) (fs argv : List String)
    (tout terr : String) (fsA segs : List String) (info : WhisperInfo)
    (hlen : 2 ≤ argv.length)
    (hf : env.ffmpeg = .completed 0 tout terr fsA)
    (hl : env.loadModel = .ok ())
    (ht : env.transcribeOut = .ok (segs, info)) :
    ∃ r, (mainRun env fs argv).exitCode = 0
      ∧ (mainRun env fs argv).stdoutLines = [jsonDumps r]
      ∧ (mainRun env fs argv).stderrLines = []
      ∧ (resultPairs r).map Prod.fst =
          ["transcript", "language", "language_probability", "duration"]
      ∧ resultPairs r =
          [("transcript", .s r.transcript), ("language", .s r.language),
           ("language_probability", .n r.language_probability),
           ("duration", .n r.duration)] := by
  have hne : ¬ argv.length < 2 := by omega
  have h := tryBody_success env (env.tempName :: fs) (argv.getD 1 "")
    (if 2 < argv.length then argv.getD 2 "" else "base") env.tempName
    tout terr fsA segs info hf hl ht
  have htv : transcribe_video env fs (argv.getD 1 "")
      (if 2 < argv.length then argv.getD 2 "" else "base") =
      (.ok { transcript := pyJoin " " (segs.map pyStrip),
             language := info.language,
             language_probability := info.language_probability,
             duration := info.duration },
       cleanupTemp env.tempName fsA,
       [.tempFileCreate env.tempName,
        .subprocessRun (ffmpegCmd (argv.getD 1 "") env.tempName),
        .modelLoad (if 2 < argv.length then argv.getD 2 "" else "base")
          "cpu" "int8",
        .modelTranscribe env.tempName 5] ++ unlinkEvents env.tempName fsA) := by
    rw [transcribe_video_eq, h]; rfl
  refine ⟨{ transcript := pyJoin " " (segs.map pyStrip),
            language := info.language,
            language_probability := info.language_probability,
            duration := info.duration }, ?_, ?_, ?_, rfl, rfl⟩ <;>
    rw [mainRun_eq_pipeline env fs argv hne,
      runPipeline_ok env fs _ _ _ _ _ htv]

/-- Witness for C5 at a concrete successful run. -/
theorem success_json_output_witness :
    2 ≤ (["transcribe.py", "video.mp4"] : List String).length
    ∧ ∃ r, (mainRun envOkSample [] ["transcribe.py", "video.mp4"]).exitCode = 0
      ∧ (mainRun envOkSample [] ["transcribe.py", "video.mp4"]).stdoutLines
          = [jsonDumps r]
      ∧ (mainRun envOkSample [] ["transcribe.py", "video.mp4"]).stderrLines
          = []
      ∧ (resultPairs r).map Prod.fst =
          ["transcript", "language", "language_probability", "duration"]
      ∧ resultPairs r =
          [("transcript", .s r.transcript), ("language", .s r.language),
           ("language_probability", .n r.language_probability),
           ("duration", .n r.duration)] :=
  ⟨by decide,
   success_json_output envOkSample [] ["transcribe.py", "video.mp4"] ""
     "ffmpeg log" ["/tmp/audio.wav", "video.mp4"] ["Hello ", " world"]
     { language := "en", language_probability := 9/10, duration := 3/2 }
     (by decide) rfl rfl rfl⟩

/-- Oracle sample where the `ffmpeg` executable cannot be located, so
`subprocess.run` raises `FileNotFoundError` (the message Python builds for
errno 2 and the missing name). -/
def envToolMissing : Env :=
  { tempName := "/tmp/audio.wav",
    ffmpeg := .notFound "[Errno 2] No such file or directory: ffmpeg",
    loadModel := .ok (),
    transcribeOut := .ok ([],
      { language := "en", language_probability := 1, duration := 0 }) }

/-- C4 counterexample: when the media tool cannot be located, the error the
call raises is a `FileNotFoundError` that carries NO captured tool error
output — there is no process whose stderr could have been captured — so the
claim's "whenever the tool exits non-zero or cannot be located, the error
carries the tool's captured error output (its stderr)" fails on the
cannot-be-located branch. -/
theorem tool_missing_error_has_no_captured_stderr :
    (transcribe_video envToolMissing [] "video.mp4" "base").1 =
      .error (.fileNotFoundError "[Errno 2] No such file or directory: ffmpeg")
    ∧ PyExc.capturedStderr
        (.fileNotFoundError "[Errno 2] No such file or directory: ffmpeg")
        = none := ⟨rfl, rfl⟩

/-- C4 amended: when the media tool runs and exits non-zero, extraction
fails with a `CalledProcessError` that carries the tool's captured stderr,
its message names the ffmpeg command and the non-zero status, and the
process exits 1 with that message in the stderr envelope (so for a
nonexistent video path the emitted error text reflects the extraction
tool's failure); when the tool cannot be located, the failure is instead a
`FileNotFoundError` carrying no captured output. -/
theorem extraction_failure_carries_tool_stderr (env : Env)
    (fs argv : List String) (tout terr : String) (rc : Int)
    (fsA : List String)
    (hlen : 2 ≤ argv.length)
    (hf : env.ffmpeg = .completed rc tout terr fsA) (hrc : 0 < rc) :
    ∃ e, (transcribe_video env fs (argv.getD 1 "")
        (if 2 < argv.length then argv.getD 2 "" else "base")).1 = .error e
      ∧ e = .calledProcessError (ffmpegCmd (argv.getD 1 "") env.tempName) rc
          (some tout) (some terr)
      ∧ e.capturedStderr = some terr
      ∧ e.message = "Command "
          ++ pyListRepr (ffmpegCmd (argv.getD 1 "") env.tempName)
          ++ " returned non-zero exit status " ++ toString rc ++ "."
      ∧ (mainRun env fs argv).exitCode = 1
      ∧ (mainRun env fs argv).stderrLines = [errLine e.message]
      ∧ (ffmpegCmd (argv.getD 1 "") env.tempName).headD "" = "ffmpeg" := by
  have hne : ¬ argv.length < 2 := by omega
  have hb := tryBody_ffmpegFail env (env.tempName :: fs) (argv.getD 1 "")
    (if 2 < argv.length then argv.getD 2 "" else "base") env.tempName
    tout terr rc fsA hf (by omega)
  have htv : transcribe_video env fs (argv.getD 1 "")
      (if 2 < argv.length then argv.getD 2 "" else "base") =
      (.error (.calledProcessError (ffmpegCmd (argv.getD 1 "") env.tempName)
          rc (some tout) (some terr)),
       cleanupTemp env.tempName fsA,
       [.tempFileCreate env.tempName,
        .subprocessRun (ffmpegCmd (argv.getD 1 "") env.tempName)]
         ++ unlinkEvents env.tempName fsA) := by
    rw [transcribe_video_eq, hb]; rfl
  refine ⟨_, ?_, rfl, rfl, ?_, ?_, ?_, rfl⟩
  · rw [htv]
  · rw [PyExc.message, if_neg (by omega)]
  · rw [mainRun_eq_pipeline env fs argv hne,
      runPipeline_error env fs _ _ _ _ _ htv]
  · rw [mainRun_eq_pipeline env fs argv hne,
      runPipeline_error env fs _ _ _ _ _ htv]

/-- Witness for the amended C4 at a concrete failing run. -/
theorem extraction_failure_carries_tool_stderr_witness :
    2 ≤ (["transcribe.py", "missing.mp4"] : List String).length
    ∧ envFfmpegFail.ffmpeg = .completed 1 ""
        "missing.mp4: No such file or directory" ["/tmp/audio.wav"]
    ∧ (0 : Int) < 1
    ∧ ∃ e, (transcribe_video envFfmpegFail []
          ((["transcribe.py", "missing.mp4"] : List String).getD 1 "")
          (if 2 < (["transcribe.py", "missing.mp4"] : List String).length
            then (["transcribe.py", "missing.mp4"] : List String).getD 2 ""
            else "base")).1 = .error e
      ∧ e = .calledProcessError
          (ffmpegCmd ((["transcribe.py", "missing.mp4"] : List String).getD 1 "")
            envFfmpegFail.tempName) 1
          (some "") (some "missing.mp4: No such file or directory")
      ∧ e.capturedStderr = some "missing.mp4: No such file or directory"
      ∧ e.message = "Command "
          ++ pyListRepr (ffmpegCmd
              ((["transcribe.py", "missing.mp4"] : List String).getD 1 "")
              envFfmpegFail.tempName)
          ++ " returned non-zero exit status " ++ toString (1 : Int) ++ "."
      ∧ (mainRun envFfmpegFail [] ["transcribe.py", "missing.mp4"]).exitCode = 1
      ∧ (mainRun envFfmpegFail [] ["transcribe.py", "missing.mp4"]).stderrLines
          = [errLine e.message]
      ∧ (ffmpegCmd ((["transcribe.py", "missing.mp4"] : List String).getD 1 "")
          envFfmpegFail.tempName).headD "" = "ffmpeg" :=
  ⟨by decide, rfl, by decide,
   extraction_failure_carries_tool_stderr envFfmpegFail []
     ["transcribe.py", "missing.mp4"] "" "missing.mp4: No such file or directory"
     1 ["/tmp/audio.wav"] (by decide) rfl (by decide)⟩
